import Mathlib

/-!
Verification of the interval-detection and aggregation engine of
`workouts.py` (classes `Pace`, `Lap`, `IntervalLapMatcher`,
`WorkoutSummary`).

Embedding conventions:
* Python floats are modelled as exact rationals (`ℚ`), Python ints as `ℤ`.
* Python `int(x)` truncates toward zero (`pyInt`); `math.floor` is `⌊·⌋`;
  Python `round` uses round-half-to-even (`pyRound`); `round(x, 2)` is
  `round2`.
* Python code that raises (`ZeroDivisionError` on `x / 0.0`, `ValueError`
  on `max([])`) is modelled by an `Option` result, with `none` standing
  for the raised exception.
* The two `while` loops of `IntervalLapMatcher` are embedded as
  structurally recursive functions over an explicit fuel counter that all
  callers instantiate large enough (at least the number of remaining list
  positions) for the fuel never to run out; this mirrors the loops exactly
  while keeping every definition kernel-computable.
-/

/-- Python `int(q)` on a rational: truncation toward zero. -/
def pyInt (q : ℚ) : ℤ := if 0 ≤ q then ⌊q⌋ else ⌈q⌉

/-- Python `round(q)`: round half to even (banker's rounding). -/
def pyRound (q : ℚ) : ℤ :=
  let f := ⌊q⌋
  let r := q - (f : ℚ)
  if r < 1/2 then f
  else if 1/2 < r then f + 1
  else if f % 2 = 0 then f else f + 1

/-- Python `round(q, 2)`: round half to even at two decimal places. -/
def round2 (q : ℚ) : ℚ := (pyRound (q * 100) : ℚ) / 100

/-- The two integers computed by `Pace.__init__` (`workouts.py` lines
33-36): `min_per_km = 1.0 / ((distance_m / time_s) * 60.0 / 1000.0)`,
`minutes_per_km = int(math.floor(min_per_km))`,
`seconds_per_km = int((min_per_km - minutes_per_km) * 60)`.
`none` models the `ZeroDivisionError` raised when `time_s` is zero
(at `distance_m / time_s`) or when the speed term is zero
(at `1.0 / ...`, which happens exactly when `distance_m = 0`). -/
def paceMinSec (distance_m time_s : ℚ) : Option (ℤ × ℤ) :=
  if time_s = 0 then none
  else
    let speed_term := distance_m / time_s * 60 / 1000
    if speed_term = 0 then none
    else
      let min_per_km := 1 / speed_term
      let minutes_per_km := ⌊min_per_km⌋
      let seconds_per_km := pyInt ((min_per_km - (minutes_per_km : ℚ)) * 60)
      some (minutes_per_km, seconds_per_km)

/-- Python `'{:02d}'.format(n)`: left-pad with zeroes to width two (a sign
counts toward the width, so any negative number is already at width two
or more and is returned unchanged). -/
def pad2 (n : ℤ) : String :=
  let s := toString n
  if s.length < 2 then "0" ++ s else s

/-- The `'{:02d}:{:02d}'` format of `Pace.__init__` line 37. -/
def paceFormat (p : ℤ × ℤ) : String := pad2 p.1 ++ ":" ++ pad2 p.2

/-- `Pace(distance_m, time_s).pace`: the full constructor, producing the
stored "MM:SS" string, or `none` for a raised `ZeroDivisionError`. -/
def Pace.compute (distance_m time_s : ℚ) : Option String :=
  (paceMinSec distance_m time_s).map paceFormat

/-- One recorded lap (`workouts.py` class `Lap`, lines 43-48). -/
structure Lap where
  distance : ℚ
  time : ℚ
  avg_hr : ℤ
  max_hr : ℤ
deriving DecidableEq

instance : Inhabited Lap := ⟨⟨0, 0, 0, 0⟩⟩

/-- `Lap.pace()` (line 60-61): meters per second. The Python version
raises on `time = 0`; every use below is guarded by `time ≠ 0`. -/
def Lap.pace (l : Lap) : ℚ := l.distance / l.time

/-- `Lap._heartbeats()` (lines 63-64): `round(avg_hr * (time / 60.0))`. -/
def Lap.heartbeats (l : Lap) : ℤ := pyRound ((l.avg_hr : ℚ) * (l.time / 60))

/-- `Lap.from_multiple(laps)` (lines 50-57): aggregate lap with summed
distance and time, heartbeat-weighted average heart rate and maximal
maximum heart rate. `none` models the `ZeroDivisionError` raised in the
`avg_hr` line when the total time is zero (in particular on the empty
list, where `sum([]) / (0.0 / 60.0)` divides by zero) and the
`ValueError` of `max([])` on the empty list. -/
def Lap.from_multiple (laps : List Lap) : Option Lap :=
  let dist := (laps.map fun lap => lap.distance).sum
  let time := (laps.map fun lap => lap.time).sum
  if time = 0 then none
  else
    match (laps.map fun lap => lap.max_hr).max? with
    | none => none
    | some mx =>
      some ⟨dist, time,
        pyRound (((laps.map fun lap => lap.heartbeats).sum : ℚ) / (time / 60)), mx⟩

/-- Matcher configuration (`workouts.py` lines 70-73). -/
structure IntervalLapMatcher where
  interval_pace_mps : ℚ
  min_interval_distance : ℚ

/-- `IntervalLapMatcher._is_interval_pace` (lines 118-119):
`lap.pace() >= self.interval_pace_mps`. -/
def IntervalLapMatcher.is_interval_pace (m : IntervalLapMatcher) (lap : Lap) : Bool :=
  decide (m.interval_pace_mps ≤ lap.pace)

/-- `IntervalLapMatcher._is_interval_lap` (lines 122-124): pace at or
above the threshold and distance at least `min_interval_distance`. -/
def IntervalLapMatcher.is_interval_lap (m : IntervalLapMatcher) (lap : Lap) : Bool :=
  decide (m.interval_pace_mps ≤ lap.pace) &&
    decide (m.min_interval_distance ≤ lap.distance)

/-- The scan loop of `_next_interval` (lines 111-113):
`while i < len(laps) and self._is_interval_pace(laps[i]): i += 1`,
returning the final `i`. Structoral recursion over fuel; callers pass
fuel `≥ len(laps)`, which can never run out mid-scan. -/
def runEnd (m : IntervalLapMatcher) (laps : List Lap) : ℕ → ℕ → ℕ
  | 0, i => i
  | fuel+1, i =>
    if h : i < laps.length then
      if m.is_interval_pace laps[i] then runEnd m laps fuel (i+1) else i
    else i

/-- `IntervalLapMatcher._next_interval(laps, start_idx)` (lines 107-116):
scan the consecutive laps at interval pace starting at `start_idx`;
return `(None, start_idx)` when there are none, else the aggregate of
`laps[start_idx:i]` together with the end index `i`. A `none` lap in
the second case models the (unreachable in practice) exception of
`Lap.from_multiple`. -/
def IntervalLapMatcher.next_interval (m : IntervalLapMatcher) (laps : List Lap)
    (start_idx : ℕ) : Option Lap × ℕ :=
  let i := runEnd m laps laps.length start_idx
  if i = start_idx then (none, i)
  else (Lap.from_multiple ((laps.drop start_idx).take (i - start_idx)), i)

/-- The main loop of `interval_laps` (lines 92-102): repeatedly take the
next combined interval, stop when none is found, and otherwise append
the lap that follows it (if any) as a recovery lap. Fuel-structural
recursion; each iteration advances `next_idx` by at least two, so fuel
`len(laps) + 1` never runs out. -/
def intervalLoop (m : IntervalLapMatcher) (laps : List Lap) : ℕ → ℕ → List Lap
  | 0, _ => []
  | fuel+1, next_idx =>
    if next_idx < laps.length then
      match m.next_interval laps next_idx with
      | (none, _) => []
      | (some interval, nidx) =>
        if nidx < laps.length then
          interval :: laps.getD nidx default :: intervalLoop m laps fuel (nidx + 1)
        else [interval]
    else []

/-- `IntervalLapMatcher.interval_laps(laps)` (lines 75-104): find the
first lap passing `_is_interval_lap` (both pace and distance gates); if
none exists return `[]`, else run the interval/recovery collection loop
from that index. -/
def IntervalLapMatcher.interval_laps (m : IntervalLapMatcher) (laps : List Lap) :
    List Lap :=
  match laps.findIdx? (fun lap => m.is_interval_lap lap) with
  | none => []
  | some start_idx => intervalLoop m laps (laps.length + 1) start_idx

/-- A matched workout (`workouts.py` lines 127-132): the alternating
interval/recovery lap list and an opaque timestamp label. -/
structure WorkoutSummary where
  laps : List Lap
  time : String

/-- `WorkoutSummary.interval_laps` (lines 134-135): laps at even indices. -/
def WorkoutSummary.interval_laps (s : WorkoutSummary) : List Lap :=
  (s.laps.enum.filter fun p => p.1 % 2 == 0).map Prod.snd

/-- `WorkoutSummary.recovery_laps` (lines 137-138): laps at odd indices. -/
def WorkoutSummary.recovery_laps (s : WorkoutSummary) : List Lap :=
  (s.laps.enum.filter fun p => p.1 % 2 == 1).map Prod.snd

/-- `WorkoutSummary.avg_time` (lines 140-144). -/
def WorkoutSummary.avg_time (laps : List Lap) : ℚ :=
  if laps.isEmpty then 0
  else round2 ((laps.map fun lap => lap.time).sum / (laps.length : ℚ))

/-- `WorkoutSummary.max_time` (lines 146-150). -/
def WorkoutSummary.max_time (laps : List Lap) : ℚ :=
  if laps.isEmpty then 0
  else round2 (((laps.map fun lap => lap.time).max?).getD 0)

/-- `WorkoutSummary.min_time` (lines 152-156). -/
def WorkoutSummary.min_time (laps : List Lap) : ℚ :=
  if laps.isEmpty then 0
  else round2 (((laps.map fun lap => lap.time).min?).getD 0)

/-- `WorkoutSummary.avg_pace` (lines 158-165): `None` on the empty
group, else the `Pace` of total distance over total time. -/
def WorkoutSummary.avg_pace (laps : List Lap) : Option String :=
  if laps.isEmpty then none
  else
    Pace.compute ((laps.map fun lap => lap.distance).sum)
      ((laps.map fun lap => lap.time).sum)

/-- Python `min(laps, key=methodcaller('pace'))`: the first lap of
minimal pace (ties keep the earlier lap, as CPython replaces the current
minimum only on a strictly smaller key). -/
def minByPace : List Lap → Option Lap
  | [] => none
  | lap :: rest =>
    some (rest.foldl (fun acc x => if x.pace < acc.pace then x else acc) lap)

/-- Python `max(laps, key=methodcaller('pace'))`: the first lap of
maximal pace. -/
def maxByPace : List Lap → Option Lap
  | [] => none
  | lap :: rest =>
    some (rest.foldl (fun acc x => if acc.pace < x.pace then x else acc) lap)

/-- `WorkoutSummary.slowest_pace` (lines 167-172). -/
def WorkoutSummary.slowest_pace (laps : List Lap) : Option String :=
  match minByPace laps with
  | none => none
  | some slowest_lap => Pace.compute slowest_lap.distance slowest_lap.time

/-- `WorkoutSummary.fastest_pace` (lines 174-179). -/
def WorkoutSummary.fastest_pace (laps : List Lap) : Option String :=
  match maxByPace laps with
  | none => none
  | some fastest_lap => Pace.compute fastest_lap.distance fastest_lap.time

/-- `WorkoutSummary.avg_hr` (lines 181-185): unweighted mean of the
per-lap average heart rates, banker's-rounded; `0` on the empty group. -/
def WorkoutSummary.avg_hr (laps : List Lap) : ℤ :=
  if laps.isEmpty then 0
  else pyRound (((laps.map fun lap => lap.avg_hr).sum : ℚ) / (laps.length : ℚ))

/-- `WorkoutSummary.max_hr` (lines 187-191): maximum of the per-lap
maximum heart rates; `0` on the empty group. -/
def WorkoutSummary.max_hr (laps : List Lap) : ℤ :=
  if laps.isEmpty then 0
  else ((laps.map fun lap => lap.max_hr).max?).getD 0

/-- `WorkoutSummary.avg_distance` (lines 193-197). -/
def WorkoutSummary.avg_distance (laps : List Lap) : ℚ :=
  if laps.isEmpty then 0
  else round2 ((laps.map fun lap => lap.distance).sum / (laps.length : ℚ))

/-- The header list of `WorkoutSummary.csv_headers` (lines 199-206). -/
def WorkoutSummary.csv_header_list : List String :=
  ["Time",
   "I Dist", "I count", "I avg time", "I avg", "I max time", "I slow",
   "I min time", "I fast", "I avg HR", "I max HR",
   "R Dist", "R count", "R avg time", "R avg", "R max time", "R slow",
   "R min time", "R fast", "R avg HR", "R max HR"]

/-- `WorkoutSummary.csv_headers()`: the comma-joined header line. -/
def WorkoutSummary.csv_headers : String :=
  String.intercalate "," WorkoutSummary.csv_header_list

/-- Python `str(...)` on a statistics value that is either a `Pace`
object or `None`. -/
def optStr : Option String → String
  | none => "None"
  | some s => s

/-- The `values` list built by `WorkoutSummary.csv()` (lines 208-216),
each entry already passed through `str`. The numeric rendering of `ℚ`
values differs textually from CPython's float formatting, but like it
never contains a comma, which is all the field-count property uses. -/
def WorkoutSummary.csv_fields (s : WorkoutSummary) : List String :=
  let intervals := s.interval_laps
  let recoveries := s.recovery_laps
  [s.time,
   toString (WorkoutSummary.avg_distance intervals), toString intervals.length,
   toString (WorkoutSummary.avg_time intervals),
   optStr (WorkoutSummary.avg_pace intervals),
   toString (WorkoutSummary.max_time intervals),
   optStr (WorkoutSummary.slowest_pace intervals),
   toString (WorkoutSummary.min_time intervals),
   optStr (WorkoutSummary.fastest_pace intervals),
   toString (WorkoutSummary.avg_hr intervals),
   toString (WorkoutSummary.max_hr intervals),
   toString (WorkoutSummary.avg_distance recoveries), toString recoveries.length,
   toString (WorkoutSummary.avg_time recoveries),
   optStr (WorkoutSummary.avg_pace recoveries),
   toString (WorkoutSummary.max_time recoveries),
   optStr (WorkoutSummary.slowest_pace recoveries),
   toString (WorkoutSummary.min_time recoveries),
   optStr (WorkoutSummary.fastest_pace recoveries),
   toString (WorkoutSummary.avg_hr recoveries),
   toString (WorkoutSummary.max_hr recoveries)]

/-- `WorkoutSummary.csv()`: the comma-joined data row. -/
def WorkoutSummary.csv (s : WorkoutSummary) : String :=
  String.intercalate "," (s.csv_fields)

/-- Modelled from the spec: the claim of section 3 that the `Pace`
string has "minutes = floor(min-per-km), seconds = round of the
fractional remainder × 60", with `round` the rounding to the nearest
integer, for any `distance_m ≥ 0` and `time_s > 0`. Used only to be
compared against `Pace.compute`, which truncates the seconds instead. -/
def specPaceRounded (distance_m time_s : ℚ) : Option String :=
  if 0 < time_s ∧ 0 ≤ distance_m then
    let min_per_km := 1 / (distance_m / time_s * 60 / 1000)
    some (paceFormat (⌊min_per_km⌋, round ((min_per_km - (⌊min_per_km⌋ : ℚ)) * 60)))
  else none

/-- Modelled from the spec: the "mean of individual paces" that section
4.4 contrasts with `avg_pace` — the arithmetic mean of the per-lap
minutes-per-kilometer values, formatted the same way as a `Pace`.
`workouts.py` has no such function; it exists only as the spec's foil. -/
def specMeanOfPaces (laps : List Lap) : Option String :=
  if laps.isEmpty then none
  else
    let mean := (laps.map fun lap => 1 / (lap.distance / lap.time * 60 / 1000)).sum /
      (laps.length : ℚ)
    some (paceFormat (⌊mean⌋, pyInt ((mean - (⌊mean⌋ : ℚ)) * 60)))

/-- The demonstration laps of the spec's section 8 example (claim C1),
instantiated with heart rates 150/160: `fast(400m, 90s)`. -/
def lapA : Lap := ⟨400, 90, 150, 160⟩

/-- `fast(400m, 88s)` of the section 8 example. -/
def lapB : Lap := ⟨400, 88, 150, 160⟩

/-- `slow(400m, 150s)` of the section 8 example. -/
def lapC : Lap := ⟨400, 150, 150, 160⟩

/-- `fast(400m, 91s)` of the section 8 example. -/
def lapD : Lap := ⟨400, 91, 150, 160⟩

/-- The section 8 matcher: `interval_pace_threshold = 4` m/s,
`min_interval_distance = 150` m. -/
def matcher4 : IntervalLapMatcher := ⟨4, 150⟩

/-- Unfolding of `paceMinSec` on nonzero inputs. -/
theorem paceMinSec_eq (d t : ℚ) (ht : t ≠ 0) (hd : d ≠ 0) :
    paceMinSec d t =
      some (⌊1 / (d / t * 60 / 1000)⌋,
        pyInt ((1 / (d / t * 60 / 1000) - (⌊1 / (d / t * 60 / 1000)⌋ : ℚ)) * 60)) := by
  have hst : d / t * 60 / 1000 ≠ 0 := by
    simp [div_eq_zero_iff, ht, hd]
  simp [paceMinSec, ht, hst]

/-- On the fractional remainder scaled by 60, Python `int` truncation is
the floor, and the result lies between 0 and 59. -/
theorem pyInt_frac60 (q : ℚ) :
    pyInt ((q - (⌊q⌋ : ℚ)) * 60) = ⌊(q - (⌊q⌋ : ℚ)) * 60⌋ ∧
      0 ≤ ⌊(q - (⌊q⌋ : ℚ)) * 60⌋ ∧ ⌊(q - (⌊q⌋ : ℚ)) * 60⌋ ≤ 59 := by
  have h0 : (0 : ℚ) ≤ (q - (⌊q⌋ : ℚ)) * 60 := by
    have := Int.floor_le q
    have h1 : (0 : ℚ) ≤ q - (⌊q⌋ : ℚ) := by linarith
    linarith
  have h1 : (q - (⌊q⌋ : ℚ)) * 60 < 60 := by
    have := Int.lt_floor_add_one q
    linarith
  refine ⟨if_pos h0, Int.floor_nonneg.mpr h0, ?_⟩
  have : ⌊(q - (⌊q⌋ : ℚ)) * 60⌋ < 60 := Int.floor_lt.mpr (by exact_mod_cast h1)
  omega

/-- C3: combining an empty sequence of laps does not return a zero-valued
aggregate: the reference code divides by the zero total time (and takes
`max` of an empty list), raising; the model therefore yields `none`. -/
theorem from_multiple_empty_raises : Lap.from_multiple [] = none := rfl

/-- C4 counterexample: at `distance_m = 1000`, `time_s = 275.7` the
minutes-per-km value is 4.595, whose fractional remainder times 60 is
35.7; the code truncates to 35 ("04:35") while the claim's
round-to-nearest formula gives 36 ("04:36"). -/
theorem pace_rounding_counterexample :
    Pace.compute 1000 (2757/10) = some "04:35" ∧
    specPaceRounded 1000 (2757/10) = some "04:36" ∧
    Pace.compute 1000 (2757/10) ≠ specPaceRounded 1000 (2757/10) := by
  have h1 : paceMinSec 1000 (2757/10) = some (4, 35) := by
    norm_num [paceMinSec, pyInt]
  have h2 : Pace.compute 1000 (2757/10) = some "04:35" := by
    rw [Pace.compute, h1]
    rfl
  have h3 : specPaceRounded 1000 (2757/10) = some "04:36" := by
    norm_num [specPaceRounded, round_eq]
    rfl
  refine ⟨h2, h3, ?_⟩
  rw [h2, h3]
  decide

/-- Shared unfolding of the full `Pace` constructor on positive inputs:
minutes are the floor of min-per-km, seconds the floor of the fractional
remainder times 60. -/
theorem pace_compute_of_pos (d t : ℚ) (hd : 0 < d) (ht : 0 < t) :
    Pace.compute d t =
      some (paceFormat (⌊1 / (d / t * 60 / 1000)⌋,
        ⌊(1 / (d / t * 60 / 1000) - (⌊1 / (d / t * 60 / 1000)⌋ : ℚ)) * 60⌋)) := by
  rw [Pace.compute, paceMinSec_eq d t (ne_of_gt ht) (ne_of_gt hd)]
  rw [(pyInt_frac60 (1 / (d / t * 60 / 1000))).1]
  rfl

/-- C4 (amended): for `distance_m > 0` and `time_s > 0`, the constructed
Pace string is `pad2 MM ++ ":" ++ pad2 SS` with `MM` the floor of the
minutes-per-km value and `SS` the floor (truncation, not rounding to
nearest) of the fractional remainder times 60. -/
theorem pace_string_formula (d t : ℚ) (hd : 0 < d) (ht : 0 < t) :
    Pace.compute d t =
      some (paceFormat (⌊1 / (d / t * 60 / 1000)⌋,
        ⌊(1 / (d / t * 60 / 1000) - (⌊1 / (d / t * 60 / 1000)⌋ : ℚ)) * 60⌋)) :=
  pace_compute_of_pos d t hd ht

/-- Witness for C4 (amended): at 1000 m in 300 s the formula yields
"05:00". -/
theorem pace_string_formula_witness :
    Pace.compute 1000 300 =
      some (paceFormat (⌊1 / ((1000 : ℚ) / 300 * 60 / 1000)⌋,
        ⌊(1 / ((1000 : ℚ) / 300 * 60 / 1000) -
          (⌊1 / ((1000 : ℚ) / 300 * 60 / 1000)⌋ : ℚ)) * 60⌋)) ∧
    Pace.compute 1000 300 = some "05:00" := by
  constructor
  · exact pace_string_formula 1000 300 (by norm_num) (by norm_num)
  · have h1 : paceMinSec 1000 300 = some (5, 0) := by
      norm_num [paceMinSec, pyInt]
    rw [Pace.compute, h1]
    rfl

/-- C5 counterexample: with `time_s = -90 ≤ 0` the constructor does not
fail — it returns the (malformed) string "-2:30"; and with
`distance_m = 0`, `time_s = 1`, which the claim places in the success
region, the constructor raises (divides by the zero speed term). -/
theorem pace_domain_counterexample :
    ((-90 : ℚ) ≤ 0 ∧ Pace.compute 1000 (-90) = some "-2:30") ∧
    (¬ ((1 : ℚ) ≤ 0) ∧ ¬ ((0 : ℚ) < 0) ∧ Pace.compute 0 1 = none) := by
  refine ⟨⟨by norm_num, ?_⟩, by norm_num, by norm_num, ?_⟩
  · have h1 : paceMinSec 1000 (-90) = some (-2, 30) := by
      norm_num [paceMinSec, pyInt]
    rw [Pace.compute, h1]
    rfl
  · simp [Pace.compute, paceMinSec]

/-- C5 (amended): the constructor fails (with a `ZeroDivisionError`)
precisely when `time_s = 0` or `distance_m = 0`; for `distance_m > 0`
and `time_s > 0` it succeeds and the produced string is a zero-padded
"MM:SS" with nonnegative minutes and seconds between 0 and 59. -/
theorem pace_compute_fail_iff (d t : ℚ) :
    (Pace.compute d t = none ↔ t = 0 ∨ d = 0) ∧
    (0 < d → 0 < t → ∃ mm ss : ℤ,
      Pace.compute d t = some (paceFormat (mm, ss)) ∧
        0 ≤ mm ∧ 0 ≤ ss ∧ ss ≤ 59) := by
  constructor
  · constructor
    · intro h
      by_contra hc
      push_neg at hc
      obtain ⟨ht, hd⟩ := hc
      rw [Pace.compute, paceMinSec_eq d t ht hd] at h
      simp at h
    · rintro (ht | hd)
      · simp [Pace.compute, paceMinSec, ht]
      · simp [Pace.compute, paceMinSec, hd]
  · intro hd ht
    refine ⟨⌊1 / (d / t * 60 / 1000)⌋,
      ⌊(1 / (d / t * 60 / 1000) - (⌊1 / (d / t * 60 / 1000)⌋ : ℚ)) * 60⌋,
      pace_compute_of_pos d t hd ht, ?_, ?_, ?_⟩
    · refine Int.floor_nonneg.mpr (le_of_lt ?_)
      positivity
    · exact (pyInt_frac60 (1 / (d / t * 60 / 1000))).2.1
    · exact (pyInt_frac60 (1 / (d / t * 60 / 1000))).2.2

/-- Witness for C5 (amended): the zero-distance constructor raises and
the 1000 m / 300 s constructor does not. -/
theorem pace_compute_fail_iff_witness :
    Pace.compute 0 300 = none ∧ Pace.compute 1000 300 ≠ none := by
  constructor
  · exact (pace_compute_fail_iff 0 300).1.mpr (Or.inr rfl)
  · intro h
    rcases (pace_compute_fail_iff 1000 300).1.mp h with h' | h' <;> norm_num at h'

/-- C10: for `distance_m ≥ 0` and `time_s > 0`, whenever the constructor
succeeds its seconds component lies between 0 and 59 inclusive — "04:60"
can never be produced, since the fractional remainder is below one and
the conversion truncates downward. -/
theorem pace_seconds_bounded (d t : ℚ) (hd : 0 ≤ d) (ht : 0 < t) (mm ss : ℤ)
    (h : paceMinSec d t = some (mm, ss)) :
    (0 ≤ ss ∧ ss ≤ 59) ∧ Pace.compute d t = some (paceFormat (mm, ss)) := by
  have h2 : Pace.compute d t = some (paceFormat (mm, ss)) := by
    rw [Pace.compute, h]
    rfl
  refine ⟨?_, h2⟩
  by_cases ht0 : t = 0
  · simp [paceMinSec, ht0] at h
  by_cases hd0 : d = 0
  · rw [paceMinSec] at h
    simp [ht0, hd0] at h
  · rw [paceMinSec_eq d t ht0 hd0] at h
    simp only [Option.some.injEq, Prod.mk.injEq] at h
    obtain ⟨hmm, hss⟩ := h
    rw [← hss, (pyInt_frac60 (1 / (d / t * 60 / 1000))).1]
    exact (pyInt_frac60 (1 / (d / t * 60 / 1000))).2

/-- Witness for C10 at `distance_m = 1000`, `time_s = 275.7`, whose
seconds component is 35. -/
theorem pace_seconds_bounded_witness :
    (0 ≤ (35 : ℤ) ∧ (35 : ℤ) ≤ 59) ∧
      Pace.compute 1000 (2757/10) = some (paceFormat (4, 35)) := by
  apply pace_seconds_bounded 1000 (2757/10) (by norm_num) (by norm_num) 4 35
  norm_num [paceMinSec, pyInt]

/-- A `takeWhile` prefix equals the `take` of its own length. -/
theorem takeWhile_as_take {α : Type} (p : α → Bool) (l : List α) :
    l.takeWhile p = l.take (l.takeWhile p).length := by
  induction l with
  | nil => rfl
  | cons a l ih =>
    by_cases h : p a
    · simp only [List.takeWhile_cons, h, if_true, List.length_cons, List.take_succ_cons]
      exact congrArg (a :: ·) ih
    · simp [List.takeWhile_cons, h]

/-- One unfolding step of the scan loop. -/
theorem runEnd_succ (m : IntervalLapMatcher) (laps : List Lap) (fuel i : ℕ) :
    runEnd m laps (fuel+1) i =
      if h : i < laps.length then
        if m.is_interval_pace laps[i] then runEnd m laps fuel (i+1) else i
      else i := rfl

/-- With enough fuel, the scan loop of `_next_interval` stops exactly at
the end of the maximal consecutive run of laps at interval pace: the
distance gate plays no part here. -/
theorem runEnd_eq (m : IntervalLapMatcher) (laps : List Lap) :
    ∀ fuel i, laps.length ≤ fuel + i →
      runEnd m laps fuel i =
        i + ((laps.drop i).takeWhile fun lap => m.is_interval_pace lap).length := by
  intro fuel
  induction fuel with
  | zero =>
    intro i hi
    rw [List.drop_eq_nil_of_le (by omega)]
    simp [runEnd]
  | succ fuel ih =>
    intro i hi
    by_cases hlt : i < laps.length
    · rw [runEnd_succ, dif_pos hlt, List.drop_eq_getElem_cons hlt, List.takeWhile_cons]
      by_cases hp : m.is_interval_pace laps[i]
      · rw [if_pos hp, hp, if_pos rfl, ih (i+1) (by omega)]
        simp only [List.length_cons]
        omega
      · rw [if_neg hp]
        simp only [Bool.not_eq_true] at hp
        rw [hp, if_neg (by simp)]
        simp
    · rw [runEnd_succ, dif_neg hlt, List.drop_eq_nil_of_le (by omega)]
      simp

/-- Full characterization of `_next_interval`: it returns `None` exactly
when the lap at `start_idx` is not at interval pace, and otherwise the
aggregate of the maximal pace-selected run together with its end index. -/
theorem next_interval_char (m : IntervalLapMatcher) (laps : List Lap) (i : ℕ) :
    m.next_interval laps i =
      if ((laps.drop i).takeWhile fun lap => m.is_interval_pace lap) = []
      then (none, i)
      else
        (Lap.from_multiple ((laps.drop i).takeWhile fun lap => m.is_interval_pace lap),
         i + ((laps.drop i).takeWhile fun lap => m.is_interval_pace lap).length) := by
  have hE : runEnd m laps laps.length i =
      i + ((laps.drop i).takeWhile fun lap => m.is_interval_pace lap).length :=
    runEnd_eq m laps laps.length i (by omega)
  by_cases hrun : ((laps.drop i).takeWhile fun lap => m.is_interval_pace lap) = []
  · rw [if_pos hrun]
    rw [IntervalLapMatcher.next_interval]
    simp only [hE, hrun, List.length_nil, Nat.add_zero, if_pos rfl]
    simp
  · rw [if_neg hrun]
    rw [IntervalLapMatcher.next_interval]
    have hlen : ((laps.drop i).takeWhile fun lap => m.is_interval_pace lap).length ≠ 0 := by
      simpa [List.length_eq_zero] using hrun
    simp only [hE]
    rw [if_neg (by omega)]
    rw [Nat.add_sub_cancel_left]
    rw [← takeWhile_as_take]

/-- C2: once scanning starts at a position whose lap run is nonempty,
`_next_interval` merges the maximal consecutive run selected by the pace
condition alone into one aggregate lap — every lap of the merged run
satisfies only `pace ≥ interval_pace_threshold`, with no distance check
reapplied past the initial seed. -/
theorem next_interval_merges_on_pace_alone (m : IntervalLapMatcher) (laps : List Lap)
    (i : ℕ)
    (h : ((laps.drop i).takeWhile fun lap => m.is_interval_pace lap) ≠ []) :
    m.next_interval laps i =
      (Lap.from_multiple ((laps.drop i).takeWhile fun lap => m.is_interval_pace lap),
       i + ((laps.drop i).takeWhile fun lap => m.is_interval_pace lap).length) ∧
    ∀ lap ∈ (laps.drop i).takeWhile fun lap => m.is_interval_pace lap,
      m.interval_pace_mps ≤ lap.pace := by
  constructor
  · rw [next_interval_char, if_neg h]
  · intro lap hmem
    have := List.mem_takeWhile_imp hmem
    simpa [IntervalLapMatcher.is_interval_pace] using this

/-- `fast(400m, 90s)` is at interval pace for the section 8 matcher. -/
theorem pace_lapA : matcher4.is_interval_pace lapA = true := by
  norm_num [IntervalLapMatcher.is_interval_pace, Lap.pace, lapA, matcher4]

/-- `fast(400m, 88s)` is at interval pace. -/
theorem pace_lapB : matcher4.is_interval_pace lapB = true := by
  norm_num [IntervalLapMatcher.is_interval_pace, Lap.pace, lapB, matcher4]

/-- `slow(400m, 150s)` is below interval pace. -/
theorem pace_lapC : matcher4.is_interval_pace lapC = false := by
  norm_num [IntervalLapMatcher.is_interval_pace, Lap.pace, lapC, matcher4]

/-- `fast(400m, 91s)` is at interval pace. -/
theorem pace_lapD : matcher4.is_interval_pace lapD = true := by
  norm_num [IntervalLapMatcher.is_interval_pace, Lap.pace, lapD, matcher4]

/-- `fast(400m, 90s)` passes both seed gates. -/
theorem seed_lapA : matcher4.is_interval_lap lapA = true := by
  norm_num [IntervalLapMatcher.is_interval_lap, Lap.pace, lapA, matcher4]

/-- `_heartbeats` of the trailing fast lap: `round(150 * 91/60) = 228`
(the tie at 227.5 rounds to the even 228). -/
theorem heartbeats_lapD : Lap.heartbeats ⟨400, 91, 150, 160⟩ = 228 := by
  norm_num [Lap.heartbeats, pyRound]

/-- Combining the two leading fast laps gives an 800 m, 178 s aggregate
with average heart rate 150 and maximum 160. -/
theorem from_multiple_AB :
    Lap.from_multiple [lapA, lapB] = some ⟨800, 178, 150, 160⟩ := by
  norm_num [Lap.from_multiple, Lap.heartbeats, pyRound, lapA, lapB, List.max?]

/-- Combining the singleton run of the trailing fast lap reproduces the
lap itself (the double rounding of `avg_hr` is exact here). -/
theorem from_multiple_D : Lap.from_multiple [lapD] = some lapD := by
  norm_num [Lap.from_multiple, heartbeats_lapD, pyRound, lapD, List.max?]

/-- The scan starting at index 0 stops at index 2 (`lapC` breaks the run). -/
theorem runEnd_demo_0 : runEnd matcher4 [lapA, lapB, lapC, lapD] 4 0 = 2 := by
  simp only [runEnd, List.length]
  norm_num [pace_lapA, pace_lapB, pace_lapC]

/-- The scan starting at index 3 stops at the end of the list. -/
theorem runEnd_demo_3 : runEnd matcher4 [lapA, lapB, lapC, lapD] 4 3 = 4 := by
  simp only [runEnd, List.length]
  norm_num [pace_lapD]

/-- `_next_interval` from index 0 merges the two leading fast laps. -/
theorem next_interval_demo_0 :
    matcher4.next_interval [lapA, lapB, lapC, lapD] 0 =
      (some ⟨800, 178, 150, 160⟩, 2) := by
  unfold IntervalLapMatcher.next_interval
  rw [List.length_cons, List.length_cons, List.length_cons, List.length_cons,
    List.length_nil]
  rw [runEnd_demo_0]
  norm_num [from_multiple_AB]

/-- `_next_interval` from index 3 wraps the trailing fast lap. -/
theorem next_interval_demo_3 :
    matcher4.next_interval [lapA, lapB, lapC, lapD] 3 = (some lapD, 4) := by
  unfold IntervalLapMatcher.next_interval
  rw [List.length_cons, List.length_cons, List.length_cons, List.length_cons,
    List.length_nil]
  rw [runEnd_demo_3]
  norm_num [from_multiple_D]

/-- One unfolding step of the main collection loop. -/
theorem intervalLoop_succ (m : IntervalLapMatcher) (laps : List Lap)
    (fuel next_idx : ℕ) :
    intervalLoop m laps (fuel+1) next_idx =
      if next_idx < laps.length then
        match m.next_interval laps next_idx with
        | (none, _) => []
        | (some interval, nidx) =>
          if nidx < laps.length then
            interval :: laps.getD nidx default :: intervalLoop m laps fuel (nidx + 1)
          else [interval]
      else [] := rfl

/-- The seed search on the section 8 laps finds index 0. -/
theorem findIdx_demo :
    [lapA, lapB, lapC, lapD].findIdx? (fun lap => matcher4.is_interval_lap lap) =
      some 0 := by
  simp only [List.findIdx?, seed_lapA]
  norm_num

/-- Shared evaluation of the matcher on the section 8 example. -/
theorem interval_laps_demo_eval :
    matcher4.interval_laps [lapA, lapB, lapC, lapD] =
      [⟨800, 178, 150, 160⟩, lapC, lapD] := by
  unfold IntervalLapMatcher.interval_laps
  rw [findIdx_demo]
  rw [List.length_cons, List.length_cons, List.length_cons, List.length_cons,
    List.length_nil]
  show intervalLoop matcher4 [lapA, lapB, lapC, lapD] (0+1+1+1+1+1) 0 =
    [⟨800, 178, 150, 160⟩, lapC, lapD]
  rw [intervalLoop_succ, next_interval_demo_0]
  norm_num [List.getD]
  rw [(by norm_num : (4 : ℕ) = 3 + 1), intervalLoop_succ, next_interval_demo_3]
  norm_num

/-- C1: on `[fast(400m,90s), fast(400m,88s), slow(400m,150s),
fast(400m,91s)]` with threshold 4 m/s and minimum interval distance
150 m, `interval_laps` returns exactly the three laps
`[combine(lap0,lap1), lap2, lap3]`: the two leading fast laps merged,
the slow lap as recovery, the trailing fast lap as final unpaired
interval. -/
theorem interval_laps_section8_example :
    matcher4.interval_laps [lapA, lapB, lapC, lapD] =
      [⟨800, 178, 150, 160⟩, lapC, lapD] ∧
    Lap.from_multiple [lapA, lapB] = some ⟨800, 178, 150, 160⟩ ∧
    Lap.from_multiple [lapD] = some lapD :=
  ⟨interval_laps_demo_eval, from_multiple_AB, from_multiple_D⟩

/-- A 100 m fast lap: at interval pace (5 m/s) but shorter than
`min_interval_distance`. -/
theorem pace_short_lap : matcher4.is_interval_pace ⟨100, 20, 150, 160⟩ = true := by
  norm_num [IntervalLapMatcher.is_interval_pace, Lap.pace, matcher4]

/-- Witness for C2: starting at index 0 of `[fast(400m,90s),
fast(100m,20s)]` the pace-selected run is the whole list — the 100 m lap
is shorter than `min_interval_distance = 150` yet still merged — and
`_next_interval` returns its aggregate with end index 2. -/
theorem next_interval_merges_witness :
    matcher4.next_interval [lapA, ⟨100, 20, 150, 160⟩] 0 =
      (Lap.from_multiple (([lapA, ⟨100, 20, 150, 160⟩].drop 0).takeWhile
        fun lap => matcher4.is_interval_pace lap),
       0 + (([lapA, ⟨100, 20, 150, 160⟩].drop 0).takeWhile
        fun lap => matcher4.is_interval_pace lap).length) ∧
    (100 : ℚ) < matcher4.min_interval_distance ∧
    ([lapA, ⟨100, 20, 150, 160⟩].drop 0).takeWhile
        (fun lap => matcher4.is_interval_pace lap) =
      [lapA, ⟨100, 20, 150, 160⟩] := by
  have hrun : ([lapA, ⟨100, 20, 150, 160⟩].drop 0).takeWhile
      (fun lap => matcher4.is_interval_pace lap) =
      [lapA, ⟨100, 20, 150, 160⟩] := by
    simp [List.takeWhile_cons, pace_lapA, pace_short_lap]
  refine ⟨(next_interval_merges_on_pace_alone matcher4 [lapA, ⟨100, 20, 150, 160⟩] 0
    (by rw [hrun]; simp)).1, by norm_num [matcher4], hrun⟩

/-- Mediant inequality through `from_multiple`: if every lap of a
nonempty run has positive time and pace at least `p`, the aggregate lap
(total distance over total time) also has pace at least `p`. -/
theorem from_multiple_pace_ge (p : ℚ) (run : List Lap) (hne : run ≠ [])
    (hall : ∀ lap ∈ run, 0 < lap.time ∧ p ≤ lap.pace) (aggr : Lap)
    (h : Lap.from_multiple run = some aggr) : p ≤ aggr.pace := by
  have htpos : 0 < (run.map fun lap => lap.time).sum := by
    refine List.sum_pos _ ?_ (by simpa using hne)
    intro a ha
    obtain ⟨lap, hlap, rfl⟩ := List.mem_map.mp ha
    exact (hall lap hlap).1
  obtain ⟨lap0, rest, rfl⟩ := List.exists_cons_of_ne_nil hne
  rw [Lap.from_multiple] at h
  rw [if_neg htpos.ne'] at h
  simp only [List.map_cons, List.max?] at h
  simp only [Option.some.injEq] at h
  subst h
  show p ≤ ((lap0 :: rest).map fun lap => lap.distance).sum /
    ((lap0 :: rest).map fun lap => lap.time).sum
  rw [le_div_iff₀ htpos]
  calc p * ((lap0 :: rest).map fun lap => lap.time).sum
      = ((lap0 :: rest).map fun lap => p * lap.time).sum :=
        (List.sum_map_mul_left _ _ _).symm
    _ ≤ ((lap0 :: rest).map fun lap => lap.distance).sum := by
        refine List.sum_le_sum ?_
        intro lap hlap
        have hp := (hall lap hlap).2
        have ht := (hall lap hlap).1
        rw [Lap.pace, le_div_iff₀ ht] at hp
        simpa using hp

/-- Loop invariant for C9: every even-indexed entry of the list produced
by the collection loop is a combined interval whose aggregate pace meets
the threshold. -/
theorem intervalLoop_even_pace (m : IntervalLapMatcher) (laps : List Lap)
    (hall : ∀ lap ∈ laps, 0 < lap.time) :
    ∀ fuel idx k, 2*k < (intervalLoop m laps fuel idx).length →
      m.interval_pace_mps ≤ ((intervalLoop m laps fuel idx).getD (2*k) default).pace := by
  intro fuel
  induction fuel with
  | zero =>
    intro idx k hk
    simp [intervalLoop] at hk
  | succ fuel ih =>
    intro idx k hk
    rw [intervalLoop_succ] at hk ⊢
    by_cases hidx : idx < laps.length
    · rw [if_pos hidx] at hk ⊢
      rcases hni : m.next_interval laps idx with ⟨oi, nidx⟩
      rw [hni] at hk
      cases oi with
      | none =>
        have hk2 : 2*k < ([] : List Lap).length := hk
        simp at hk2
      | some interval =>
        have hk2 : 2*k < (if nidx < laps.length then
            interval :: laps.getD nidx default :: intervalLoop m laps fuel (nidx + 1)
            else [interval]).length := hk
        show m.interval_pace_mps ≤ ((if nidx < laps.length then
            interval :: laps.getD nidx default :: intervalLoop m laps fuel (nidx + 1)
            else [interval]).getD (2*k) default).pace
        have hchar := next_interval_char m laps idx
        rw [hni] at hchar
        by_cases hrun :
            ((laps.drop idx).takeWhile fun lap => m.is_interval_pace lap) = []
        · rw [if_pos hrun] at hchar
          simp at hchar
        · rw [if_neg hrun] at hchar
          simp only [Prod.mk.injEq] at hchar
          obtain ⟨hfm, hnidx⟩ := hchar
          have hpace : m.interval_pace_mps ≤ interval.pace := by
            refine from_multiple_pace_ge m.interval_pace_mps
              ((laps.drop idx).takeWhile fun lap => m.is_interval_pace lap) hrun
              ?_ interval hfm.symm
            intro lap hmem
            constructor
            · refine hall lap ?_
              exact List.drop_subset idx laps ((List.takeWhile_prefix _).subset hmem)
            · have := List.mem_takeWhile_imp hmem
              simpa [IntervalLapMatcher.is_interval_pace] using this
          by_cases hn2 : nidx < laps.length
          · rw [if_pos hn2] at hk2 ⊢
            match k with
            | 0 => simpa using hpace
            | k'+1 =>
              have h2 : 2*(k'+1) = 2*k' + 1 + 1 := by ring
              rw [h2] at hk2 ⊢
              rw [List.getD_cons_succ, List.getD_cons_succ]
              rw [List.length_cons, List.length_cons] at hk2
              exact ih (nidx+1) k' (by omega)
          · rw [if_neg hn2] at hk2 ⊢
            have hk0 : k = 0 := by
              simp only [List.length_cons, List.length_nil] at hk2
              omega
            subst hk0
            simpa using hpace
    · rw [if_neg hidx] at hk
      simp at hk

/-- C9: on laps of positive time and nonnegative distance, every
even-indexed entry of `interval_laps` — each a merged run of laps that
individually meet the pace threshold — has aggregate pace (total
distance over total time) at or above `interval_pace_threshold`. -/
theorem interval_laps_even_entries_fast (m : IntervalLapMatcher) (laps : List Lap)
    (hall : ∀ lap ∈ laps, 0 < lap.time ∧ 0 ≤ lap.distance) (k : ℕ)
    (hk : 2*k < (m.interval_laps laps).length) :
    m.interval_pace_mps ≤ ((m.interval_laps laps).get ⟨2*k, hk⟩).pace := by
  have hall' : ∀ lap ∈ laps, 0 < lap.time := fun lap h => (hall lap h).1
  rcases hfi : laps.findIdx? (fun lap => m.is_interval_lap lap) with _ | start_idx
  · rw [IntervalLapMatcher.interval_laps] at hk
    rw [hfi] at hk
    simp at hk
  · have hlen : (m.interval_laps laps) =
        intervalLoop m laps (laps.length + 1) start_idx := by
      rw [IntervalLapMatcher.interval_laps, hfi]
    have hk' : 2*k < (intervalLoop m laps (laps.length + 1) start_idx).length := by
      rw [← hlen]
      exact hk
    have h1 := intervalLoop_even_pace m laps hall' (laps.length + 1) start_idx k hk'
    have h3 : (m.interval_laps laps).get ⟨2*k, hk⟩ =
        (m.interval_laps laps).getD (2*k) default := by
      rw [List.get_eq_getElem]
      exact (List.getD_eq_getElem _ _ hk).symm
    rw [h3, hlen]
    exact h1

/-- Witness for C9 at the section 8 laps and even index 0: the merged
leading interval (800 m in 178 s) is at or above 4 m/s. -/
theorem interval_laps_even_entries_fast_witness :
    matcher4.interval_pace_mps ≤
      ((matcher4.interval_laps [lapA, lapB, lapC, lapD]).getD (2*0) default).pace := by
  have hk : 2*0 < (matcher4.interval_laps [lapA, lapB, lapC, lapD]).length := by
    rw [interval_laps_demo_eval]
    norm_num
  have h := interval_laps_even_entries_fast matcher4 [lapA, lapB, lapC, lapD]
    (by intro lap hm; fin_cases hm <;> norm_num [lapA, lapB, lapC, lapD]) 0 hk
  rw [List.get_eq_getElem] at h
  rwa [List.getD_eq_getElem _ default hk]

/-- C6: `avg_pace` of a non-empty group is the Pace of total distance
over total time; it is `None` on the empty group; and on a concrete
group of unequal laps (1000 m/300 s and 3000 m/540 s) it differs from
the mean of the per-lap pace values ("03:30" versus "04:00"). -/
theorem avg_pace_total_over_total :
    (∀ laps : List Lap, laps ≠ [] →
      WorkoutSummary.avg_pace laps =
        Pace.compute ((laps.map fun lap => lap.distance).sum)
          ((laps.map fun lap => lap.time).sum)) ∧
    WorkoutSummary.avg_pace [] = none ∧
    (WorkoutSummary.avg_pace [⟨1000, 300, 150, 160⟩, ⟨3000, 540, 140, 150⟩] =
        some "03:30" ∧
      specMeanOfPaces [⟨1000, 300, 150, 160⟩, ⟨3000, 540, 140, 150⟩] =
        some "04:00" ∧
      WorkoutSummary.avg_pace [⟨1000, 300, 150, 160⟩, ⟨3000, 540, 140, 150⟩] ≠
        specMeanOfPaces [⟨1000, 300, 150, 160⟩, ⟨3000, 540, 140, 150⟩]) := by
  have h1 : ∀ laps : List Lap, laps ≠ [] →
      WorkoutSummary.avg_pace laps =
        Pace.compute ((laps.map fun lap => lap.distance).sum)
          ((laps.map fun lap => lap.time).sum) := by
    intro laps h
    rw [WorkoutSummary.avg_pace, if_neg (by simpa using h)]
  have h2 : WorkoutSummary.avg_pace
      [⟨1000, 300, 150, 160⟩, ⟨3000, 540, 140, 150⟩] = some "03:30" := by
    rw [h1 _ (by simp)]
    have hsum : Pace.compute
        (([(⟨1000, 300, 150, 160⟩ : Lap), ⟨3000, 540, 140, 150⟩].map
          fun lap => lap.distance).sum)
        (([(⟨1000, 300, 150, 160⟩ : Lap), ⟨3000, 540, 140, 150⟩].map
          fun lap => lap.time).sum) = Pace.compute 4000 840 := by
      norm_num
    rw [hsum]
    have hpms : paceMinSec 4000 840 = some (3, 30) := by
      norm_num [paceMinSec, pyInt]
    rw [Pace.compute, hpms]
    rfl
  have h3 : specMeanOfPaces [⟨1000, 300, 150, 160⟩, ⟨3000, 540, 140, 150⟩] =
      some "04:00" := by
    have : specMeanOfPaces [⟨1000, 300, 150, 160⟩, ⟨3000, 540, 140, 150⟩] =
        some (paceFormat (4, 0)) := by
      norm_num [specMeanOfPaces, pyInt]
    rw [this]
    rfl
  refine ⟨h1, rfl, h2, h3, ?_⟩
  rw [h2, h3]
  decide

/-- Witness for C6 on the singleton group. -/
theorem avg_pace_total_over_total_witness :
    WorkoutSummary.avg_pace [(⟨1000, 300, 150, 160⟩ : Lap)] =
      Pace.compute
        (([(⟨1000, 300, 150, 160⟩ : Lap)].map fun lap => lap.distance).sum)
        (([(⟨1000, 300, 150, 160⟩ : Lap)].map fun lap => lap.time).sum) :=
  avg_pace_total_over_total.1 [⟨1000, 300, 150, 160⟩] (by simp)

/-- C7 counterexample: a stored alternating sequence of odd length 3 has
a nonempty recovery group — its count is 1 and its average heart rate
150, not 0: odd length does not imply an empty recovery group. -/
theorem recovery_stats_odd_counterexample :
    Odd (WorkoutSummary.mk [lapA, lapC, lapD] "2020-06-04").laps.length ∧
    (WorkoutSummary.mk [lapA, lapC, lapD] "2020-06-04").recovery_laps = [lapC] ∧
    ((WorkoutSummary.mk [lapA, lapC, lapD] "2020-06-04").recovery_laps).length ≠ 0 ∧
    WorkoutSummary.avg_hr
      ((WorkoutSummary.mk [lapA, lapC, lapD] "2020-06-04").recovery_laps) = 150 := by
  have hrec : (WorkoutSummary.mk [lapA, lapC, lapD] "2020-06-04").recovery_laps =
      [lapC] := rfl
  refine ⟨by decide, hrec, by rw [hrec]; simp, ?_⟩
  rw [hrec]
  norm_num [WorkoutSummary.avg_hr, pyRound, lapC]

/-- C7 (amended): whenever the stored sequence has at most one lap (the
only case in which the recovery group is empty), the recovery-block
statistics evaluate without raising to count 0, `avg_hr` 0, `max_hr` 0
and `avg_pace` `None`. -/
theorem recovery_stats_empty (s : WorkoutSummary) (h : s.laps.length ≤ 1) :
    s.recovery_laps = [] ∧
    s.recovery_laps.length = 0 ∧
    WorkoutSummary.avg_hr s.recovery_laps = 0 ∧
    WorkoutSummary.max_hr s.recovery_laps = 0 ∧
    WorkoutSummary.avg_pace s.recovery_laps = none := by
  have hrec : s.recovery_laps = [] := by
    rcases s with ⟨laps, time⟩
    match laps, h with
    | [], _ => rfl
    | [lap], _ => rfl
    | lap1 :: lap2 :: rest, h => simp at h
  rw [hrec]
  exact ⟨rfl, rfl, rfl, rfl, rfl⟩

/-- Witness for C7 (amended) on a one-lap workout. -/
theorem recovery_stats_empty_witness :
    (WorkoutSummary.mk [lapA] "2020-06-04").recovery_laps = [] ∧
    (WorkoutSummary.mk [lapA] "2020-06-04").recovery_laps.length = 0 ∧
    WorkoutSummary.avg_hr (WorkoutSummary.mk [lapA] "2020-06-04").recovery_laps = 0 ∧
    WorkoutSummary.max_hr (WorkoutSummary.mk [lapA] "2020-06-04").recovery_laps = 0 ∧
    WorkoutSummary.avg_pace (WorkoutSummary.mk [lapA] "2020-06-04").recovery_laps =
      none :=
  recovery_stats_empty (WorkoutSummary.mk [lapA] "2020-06-04") (by simp)

/-- C8: for every workout — with zero, one or many interval and recovery
laps — the CSV data row has exactly as many fields as the fixed header,
namely 21. -/
theorem csv_field_count (s : WorkoutSummary) :
    (s.csv_fields).length = WorkoutSummary.csv_header_list.length ∧
    WorkoutSummary.csv_header_list.length = 21 :=
  ⟨rfl, rfl⟩

/-- Witness for C8 on an empty workout. -/
theorem csv_field_count_witness :
    ((WorkoutSummary.mk [] "t").csv_fields).length =
        WorkoutSummary.csv_header_list.length ∧
      WorkoutSummary.csv_header_list.length = 21 :=
  csv_field_count (WorkoutSummary.mk [] "t")
